import Mathlib

/-!
Shallow embedding of the `User` model from `src/user/models.py`
(django-templates repository) and proofs of its specified properties.

The model is a record with plain fields, a computed attribute
(`full_name`), a memoized computed attribute (`is_adult`, realised by
the framework as an entry in the instance dictionary, modelled here by
an explicit optional cache field), explicit cache invalidation,
validation (`clean`), a comparison protocol (`__eq__`, `__lt__`,
`__hash__`) and sequential destructuring (`__iter__`).

Python string truthiness (a string is falsy iff it is empty) and the
`A or B` expression (returns `A` if truthy, else `B`) are modelled
explicitly.  The timestamp `date_joined` and the identity key `id` are
modelled as integers; `age` and `id` may be absent (`None`), modelled
with `Option`.
-/

/-- The state of one `User` instance.  The plain columns come from the
field declarations at the top of the class; `is_adult_cache` models the
slot in the instance dictionary where the framework cached-property
decorator stores the memoized value of `is_adult` (absent on a fresh
instance). -/
structure User where
  id : Option Int
  first_name : String
  last_name : String
  username : String
  email : String
  date_joined : Int
  age : Option Int
  is_adult_cache : Option Bool
  deriving Repr, DecidableEq

/-- Python string truthiness: a string is truthy iff it is non-empty. -/
def pyTruthy (s : String) : Bool := s ≠ ""

/-- The Python expression `a or b` on strings: `a` if truthy, else `b`. -/
def pyOr (a b : String) : String := if pyTruthy a then a else b

/-- `full_name` property:
`return f"{self.first_name} {self.last_name}" or f"{self.username}"`. -/
def full_name (u : User) : String :=
  pyOr (u.first_name ++ " " ++ u.last_name) u.username

/-- Instance method `get_full_name`:
`return f"{self.first_name} {self.last_name}" or f"{self.username}"`. -/
def get_full_name (u : User) : String :=
  pyOr (u.first_name ++ " " ++ u.last_name) u.username

/-- The body of the `is_adult` cached property:
`return self.age is not None and self.age >= 18` (the Python `and`
short-circuits on `None`). -/
def is_adult_compute (u : User) : Bool :=
  match u.age with
  | none => false
  | some a => decide (a ≥ 18)

/-- One attribute access of the cached property `is_adult`.  Returns the
value produced, the instance state afterwards, and whether the body was
executed (a cache miss).  A hit returns the stored value unchanged; a
miss runs the body and stores the result in the instance dictionary. -/
def is_adult_access (u : User) : Bool × User × Bool :=
  match u.is_adult_cache with
  | some b => (b, u, false)
  | none =>
      let b := is_adult_compute u
      (b, { u with is_adult_cache := some b }, true)

/-- Plain attribute assignment `self.age = a`: it touches only the
column, never the cached-property slot. -/
def set_age (u : User) (a : Option Int) : User := { u with age := a }

/-- `invalidate_cache`:
`if hasattr(self, "is_adult"): del self.is_adult`.
`hasattr` performs an attribute access, so on a cache miss it first runs
the cached-property body and stores the result (the descriptor never
raises, so `hasattr` is always true); `del self.is_adult` then removes
the stored entry from the instance dictionary. -/
def invalidate_cache (u : User) : User :=
  let (_, u1, _) := is_adult_access u
  { u1 with is_adult_cache := none }

/-- `clean`: raises `ValueError("Username cannot be empty")` when the
username is falsy, `ValueError("Age cannot be negative")` when `age` is
present and negative; otherwise delegates to the base-class `clean`,
which does nothing. -/
def clean (u : User) : Except String Unit :=
  if ¬ pyTruthy u.username then .error "Username cannot be empty"
  else match u.age with
    | some a => if a < 0 then .error "Age cannot be negative" else .ok ()
    | none => .ok ()

/-- The right operand of a comparison: either another `User` instance or
any value that is not a `User`. -/
inductive PyOperand where
  | user (u : User)
  | nonUser
  deriving Repr, DecidableEq

/-- Result of a rich-comparison method: a boolean, or the
`NotImplemented` sentinel Python uses for unsupported comparisons. -/
inductive CmpResult where
  | bool (b : Bool)
  | notImplemented
  deriving Repr, DecidableEq

/-- `__eq__`: `NotImplemented` when the other operand is not a `User`,
otherwise `self.id == other.id`. -/
def user_eq (self : User) (other : PyOperand) : CmpResult :=
  match other with
  | .nonUser => .notImplemented
  | .user o => .bool (decide (self.id = o.id))

/-- `__lt__`: `NotImplemented` when the other operand is not a `User`,
otherwise `self.date_joined < other.date_joined`. -/
def user_lt (self : User) (other : PyOperand) : CmpResult :=
  match other with
  | .nonUser => .notImplemented
  | .user o => .bool (decide (self.date_joined < o.date_joined))

/-- The Python `hash` builtin restricted to the values an identity key
can take: an integer or `None`.  The only fact the development uses is
that it is a fixed function of its argument. -/
def pyHash (o : Option Int) : Int :=
  match o with
  | none => 0
  | some n => n

/-- `__hash__`: `return hash(self.id)`. -/
def user_hash (u : User) : Int := pyHash u.id

/-- One field value yielded while destructuring a `User`. -/
inductive FieldVal where
  | str (s : String)
  | timestamp (t : Int)
  | optInt (n : Option Int)
  deriving Repr, DecidableEq

/-- A generator object: the field values not yet yielded.  The `return`
statement after `yield from` in the source raises `StopIteration` whose
payload ordinary iteration discards, so exhaustion carries no value. -/
structure Generator where
  pending : List FieldVal
  deriving Repr, DecidableEq

/-- Calling `__iter__` creates a fresh generator that will yield the six
plain field values in declaration order:
`(first_name, last_name, username, email, date_joined, age)`. -/
def user_iter (u : User) : Generator :=
  ⟨[.str u.first_name, .str u.last_name, .str u.username, .str u.email,
    .timestamp u.date_joined, .optInt u.age]⟩

/-- One `next` call on a generator: the next field value and the
advanced generator, or exhaustion (`StopIteration`). -/
def Generator.step : Generator → Option (FieldVal × Generator)
  | ⟨[]⟩ => none
  | ⟨x :: xs⟩ => some (x, ⟨xs⟩)

/-- Driving a generator to exhaustion with repeated `next` calls,
collecting everything it yields (what a `for` loop or `tuple(...)`
observes). -/
def drain : Generator → List FieldVal
  | ⟨[]⟩ => []
  | ⟨x :: xs⟩ => x :: drain ⟨xs⟩

/-- A concrete instance with first name "Ada" and last name "Lovelace",
fresh (nothing cached yet). -/
def adaUser : User :=
  ⟨some 1, "Ada", "Lovelace", "ada", "ada@x.com", 100, some 36, none⟩

/-- A concrete instance whose first and last name are both empty and
whose username is "ada". -/
def blankNameUser : User :=
  ⟨some 2, "", "", "ada", "ada@x.com", 100, none, none⟩

/-- Two concrete instances sharing the identity key 7 while every other
field differs. -/
def twinA : User := ⟨some 7, "A", "B", "a", "a@x.com", 1, none, none⟩

/-- Second instance with identity key 7; see `twinA`. -/
def twinB : User := ⟨some 7, "C", "D", "c", "c@x.com", 2, some 30, none⟩

/-- The interpolation `f"{first_name} {last_name}"` always contains the
separating space, hence is never the empty string. -/
lemma concat_space_ne_empty (s t : String) : s ++ " " ++ t ≠ "" := by
  intro h
  have hl : (s ++ " " ++ t).length = 0 := by rw [h]; rfl
  simp [String.length_append] at hl
  exact absurd hl.1.2 (by decide)

/-- C1 (counterexample): for the Record with `first_name = ""`,
`last_name = ""`, `username = "ada"`, the derived attribute `full_name`
returns the single-space string `" "`, not `"ada"` as the claim states:
the interpolated string `" "` is non-empty, hence truthy, so the
`or username` fallback never fires. -/
theorem full_name_empty_names_counterexample :
    full_name blankNameUser = " " ∧ full_name blankNameUser ≠ "ada" := by
  constructor <;> decide

/-- C1 (amended): `full_name` returns the concatenation
`"{first_name} {last_name}"` unless that concatenation is empty, in
which case it returns `username`; since the concatenation always
contains the separating space it is never empty, so `full_name` always
returns the concatenation: for `first_name = "Ada"`,
`last_name = "Lovelace"` it returns `"Ada Lovelace"`, and for
`first_name = ""`, `last_name = ""`, `username = "ada"` it returns
`" "`. -/
theorem full_name_always_concatenation :
    (∀ u : User, full_name u = u.first_name ++ " " ++ u.last_name) ∧
    full_name adaUser = "Ada Lovelace" ∧ full_name blankNameUser = " " := by
  refine ⟨fun u => ?_, by decide, by decide⟩
  unfold full_name pyOr pyTruthy
  simp [concat_space_ne_empty]

/-- C2: staleness law.  Starting from a fresh Record with `age = 10`,
the first access of `is_adult` yields `false`; after setting `age = 20`
without invalidating, a further access still yields the cached `false`
without recomputation; after `invalidate_cache()`, the next access
yields `true`. -/
theorem is_adult_staleness (idv : Option Int) (fn ln un em : String)
    (dj : Int) :
    let s0 : User := ⟨idv, fn, ln, un, em, dj, some 10, none⟩
    let a1 := is_adult_access s0
    let a2 := is_adult_access (set_age a1.2.1 (some 20))
    let a3 := is_adult_access (invalidate_cache a2.2.1)
    a1.1 = false ∧ a2.1 = false ∧ a2.2.2 = false ∧ a3.1 = true := by
  simp [is_adult_access, is_adult_compute, set_age, invalidate_cache]

/-- C3: `clean` succeeds exactly when the username is non-empty and any
present age is non-negative; when the username is empty it fails with
the username validation error, and when the username is non-empty but a
present age is negative it fails with the age validation error.  The
error is returned to the caller, never silently fixed. -/
theorem clean_validation (u : User) :
    (clean u = Except.ok () ↔
      (u.username ≠ "" ∧ ∀ a : Int, u.age = some a → 0 ≤ a)) ∧
    (u.username = "" → clean u = Except.error "Username cannot be empty") ∧
    (∀ a : Int, u.username ≠ "" → u.age = some a → a < 0 →
      clean u = Except.error "Age cannot be negative") := by
  unfold clean pyTruthy
  by_cases hu : u.username = "" <;>
    cases hage : u.age <;> simp [hu, hage]

/-- C3 (witness): a Record with username "ada" and age 36 passes
validation. -/
theorem clean_validation_witness : clean adaUser = Except.ok () :=
  (clean_validation adaUser).1.mpr
    ⟨by decide, by intro a h; simp [adaUser] at h; omega⟩

/-- C4: `invalidate_cache()` leaves every column unchanged and empties
the cached-property slot; when nothing was cached it is a no-op on the
whole state; afterwards the next access of `is_adult` recomputes from
the current field values (a cache miss executing the body). -/
theorem invalidate_cache_spec (u : User) :
    invalidate_cache u = { u with is_adult_cache := none } ∧
    (u.is_adult_cache = none → invalidate_cache u = u) ∧
    (is_adult_access (invalidate_cache u)).1 = is_adult_compute u ∧
    (is_adult_access (invalidate_cache u)).2.2 = true := by
  obtain ⟨idv, fn, ln, un, em, dj, ag, c⟩ := u
  cases c <;> simp [invalidate_cache, is_adult_access, is_adult_compute]

/-- C4 (witness): on the fresh instance `blankNameUser` (nothing
cached), `invalidate_cache` is a no-op. -/
theorem invalidate_cache_witness : invalidate_cache blankNameUser = blankNameUser :=
  (invalidate_cache_spec blankNameUser).2.1 rfl

/-- C5: accessing `is_adult` twice with no mutation and no invalidation
in between returns the same value both times; the second access never
executes the body, and on a fresh instance (empty cache) the first
access does execute it. -/
theorem is_adult_idempotent (u : User) :
    (is_adult_access u).1 = (is_adult_access (is_adult_access u).2.1).1 ∧
    (is_adult_access (is_adult_access u).2.1).2.2 = false ∧
    (u.is_adult_cache = none → (is_adult_access u).2.2 = true) := by
  cases h : u.is_adult_cache <;> simp [is_adult_access, h]

/-- C5 (witness): on the fresh instance `adaUser` the first access
executes the body. -/
theorem is_adult_idempotent_witness : (is_adult_access adaUser).2.2 = true :=
  (is_adult_idempotent adaUser).2.2 rfl

/-- C6: between two Records, equality holds exactly when the identity
keys coincide, regardless of every other field; Records with different
identity keys compare unequal; and the hash, a function of the identity
key alone, agrees on Records with equal identity keys. -/
theorem user_eq_hash_by_id (a b : User) :
    (user_eq a (.user b) = .bool true ↔ a.id = b.id) ∧
    (a.id ≠ b.id → user_eq a (.user b) = .bool false) ∧
    (a.id = b.id → user_hash a = user_hash b) := by
  refine ⟨?_, fun h => ?_, fun h => ?_⟩
  · simp [user_eq]
  · simp [user_eq, h]
  · simp [user_hash, h]

/-- C6 (witness): `twinA` and `twinB` share identity key 7 while all
other fields differ; they compare equal and hash identically. -/
theorem user_eq_hash_by_id_witness :
    user_eq twinA (.user twinB) = .bool true ∧ user_hash twinA = user_hash twinB :=
  ⟨(user_eq_hash_by_id twinA twinB).1.mpr rfl,
   (user_eq_hash_by_id twinA twinB).2.2 rfl⟩

/-- C7: between two Records, `<` holds exactly when the left timestamp
`date_joined` is strictly earlier than the right one. -/
theorem user_lt_by_date_joined (a b : User) :
    user_lt a (.user b) = .bool true ↔ a.date_joined < b.date_joined := by
  simp [user_lt]

/-- C7 (witness): `twinA` joined at time 1, `twinB` at time 2, so
`twinA < twinB`. -/
theorem user_lt_by_date_joined_witness : user_lt twinA (.user twinB) = .bool true :=
  (user_lt_by_date_joined twinA twinB).mpr (by decide)

/-- C8: compared against any non-Record operand, both `__eq__` and
`__lt__` return the `NotImplemented` sentinel, which is neither `True`
nor `False`; both methods are total, so no exception is raised by the
comparison code itself. -/
theorem non_record_comparison (u : User) (b : Bool) :
    user_eq u .nonUser = .notImplemented ∧
    user_lt u .nonUser = .notImplemented ∧
    user_eq u .nonUser ≠ .bool b ∧
    user_lt u .nonUser ≠ .bool b := by
  simp [user_eq, user_lt]

/-- C9: destructuring a Record drives a fresh generator that yields
exactly the six plain field values in declaration order and then stops
(six steps, starting from `first_name`); `user_iter` depends only on the
instance fields, so a second invocation on the unmutated instance
restarts from the first field and yields the same six values again. -/
theorem user_iter_spec (idv : Option Int) (fn ln un em : String)
    (dj : Int) (ag : Option Int) (c : Option Bool) :
    drain (user_iter ⟨idv, fn, ln, un, em, dj, ag, c⟩) =
      [.str fn, .str ln, .str un, .str em, .timestamp dj, .optInt ag] ∧
    (drain (user_iter ⟨idv, fn, ln, un, em, dj, ag, c⟩)).length = 6 ∧
    Generator.step (user_iter ⟨idv, fn, ln, un, em, dj, ag, c⟩) =
      some (.str fn, ⟨[.str ln, .str un, .str em, .timestamp dj, .optInt ag]⟩) := by
  refine ⟨?_, ?_, rfl⟩ <;> simp [user_iter, drain]

/-- C10: the instance method `get_full_name()` and the derived attribute
`full_name` are extensionally equal functions of the fields. -/
theorem get_full_name_eq_full_name (u : User) :
    get_full_name u = full_name u := rfl

